import Mathlib

/-!
Shallow embedding of the `ezipc` remote-peer engine (`src/ezipc/remote/__init__.py`),
together with the parts of its data model that the verified properties need.
Python dictionaries are modelled as association lists with unique keys
(first-match lookup, in-place overwrite on insert); JSON values are an inductive
type; the asynchronous effects of the engine (sends, task spawns, warnings) are
recorded as an explicit event trace, and the few points where the outcome
depends on the environment (a transport send failing, a response arriving or a
timeout firing) are passed in as explicit oracle parameters.

The files `remote/protocol.py`, `remote/handlers.py`, `remote/connection.py`
and `remote/exc.py` of the repository are not available; the definitions drawn
from them are modelled from the specification and are marked as such in their
doc comments.  Everything else is translated directly from the source.
-/

set_option maxRecDepth 4096

namespace EzIPC

/-- A JSON value, as produced by `json.loads`.  Python `None` is `Json.null`;
JSON objects keep their fields as an association list with unique keys. -/
inductive Json where
  | null
  | bool (b : Bool)
  | num (n : Int)
  | str (s : String)
  | arr (xs : List Json)
  | obj (fields : List (String × Json))

/-- Python truthiness of a JSON value (`bool(x)` for the decoded value). -/
def Json.truthy : Json → Bool
  | .null => false
  | .bool b => b
  | .num n => n != 0
  | .str s => s != ""
  | .arr xs => !xs.isEmpty
  | .obj fs => !fs.isEmpty

/-- `d.get(key)` on a Python dict modelled as an association list. -/
def dget {α : Type} : List (String × α) → String → Option α
  | [], _ => none
  | (k, v) :: t, key => if k = key then some v else dget t key

/-- `d[key] = v` on a Python dict: overwrite in place, append if absent. -/
def dinsert {α : Type} : List (String × α) → String → α → List (String × α)
  | [], k, v => [(k, v)]
  | (k', v') :: t, k, v => if k' = k then (k, v) :: t else (k', v') :: dinsert t k v

/-- `d.pop(key)` (the removal part): drop the binding for `key`. -/
def dremove {α : Type} : List (String × α) → String → List (String × α)
  | [], _ => []
  | (k', v) :: t, k => if k' = k then t else (k', v) :: dremove t k

/-- JSON-RPC message classification, as used by `Remote.process_line`.
Modelled from the spec: `JRPC.check` from `remote/protocol.py` is not under
`src/`; per the envelope classifier, a message is a REQUEST when `method` (a
string) and `id` are both present, a NOTIF when `method` is present and `id`
absent, a RESPONSE when `id` is present with exactly one of `result`/`error`,
and NONE (invalid) otherwise. -/
inductive JRPC where
  | RESPONSE
  | REQUEST
  | NOTIF
  | NONE
deriving DecidableEq, Repr

/-- Modelled from the spec: the envelope classifier of `remote/protocol.py`. -/
def JRPC.check (data : List (String × Json)) : JRPC :=
  match dget data "method" with
  | some (.str _) =>
    if (dget data "id").isSome then .REQUEST else .NOTIF
  | some _ => .NONE
  | none =>
    if (dget data "id").isSome then
      match dget data "result", dget data "error" with
      | some _, none => .RESPONSE
      | none, some _ => .RESPONSE
      | _, _ => .NONE
    else .NONE

/-- Failures that can complete a pending-call future. -/
inductive Exc where
  | connectionReset
  | remoteError (code : Int) (message : String)
deriving DecidableEq, Repr

/-- The state of one pending-call future (`asyncio.Future`). -/
inductive FutureState where
  | pending
  | result (v : Json)
  | exc (e : Exc)
  | cancelled

/-- The body of an outbound response: a result or an error object. -/
inductive RespBody where
  | result (v : Json)
  | err (code : Int) (message : String)

/-- Observable effects of the engine, recorded in order of occurrence. -/
inductive Event where
  | sentResponse (mid : Json) (body : RespBody)
  | sentNotif (method : String) (params : Option Json)
  | sentRequest (method : String) (mid : String) (params : Option Json)
  | spawnedTask (handler : Nat) (data : List (String × Json))
  | completedFuture (mid : String) (fut : FutureState)
  | beganEncryption
  | dcon (reason : Json)
  | warned (msg : String)
  | errorLogged (msg : String)
  | wrote (data : String)

/-- The `{byte, notif, request, response}` counters of a peer. -/
structure Counters where
  byte : Nat
  notif : Nat
  request : Nat
  response : Nat
deriving DecidableEq, Repr

/-- Modelled from the spec: the state of `remote/connection.py`'s `Connection`
(not under `src/`): transport usability, crypto capability, the stored remote
public key, whether symmetric encryption is active, and the flushed byte
counters of the codec. -/
structure Connection where
  isOpen : Bool
  can_encrypt : Bool
  hasRemoteKey : Bool
  active : Bool
  total_sent : Nat
  total_recv : Nat
deriving DecidableEq, Repr

/-- Modelled from the spec: `Connection.can_activate()` — activation is
permitted when crypto is available, both keys are present (the remote key has
been stored) and encryption is not yet active. -/
def Connection.can_activate (c : Connection) : Bool :=
  c.can_encrypt && c.hasRemoteKey && !c.active

/-- Modelled from the spec: `Connection.begin_encryption()` switches the
channel to encrypted (ACTIVE) mode. -/
def Connection.begin_encryption (c : Connection) : Connection :=
  { c with active := true }

/-- Modelled from the spec: `Connection.close()` makes the transport unusable;
the byte counters are left untouched. -/
def Connection.close (c : Connection) : Connection :=
  { c with isOpen := false }

/-- Modelled from the spec: `Connection.write` writes one frame and counts the
bytes written. -/
def Connection.write (c : Connection) (data : String) : Connection :=
  { c with total_sent := c.total_sent + data.length }

/-- The state of a `Remote` (`src/ezipc/remote/__init__.py`, class `Remote`):
handler tables (local and inherited, for requests and notifications), the
pending-call map `futures`, the sent/received counters, the optional group set
and the peer's own correlation id.  Handlers are identified by opaque numeric
ids; the peer group is the Python set of member ids. -/
structure Remote where
  connection : Connection
  hooks_notif : List (String × Nat)
  hooks_notif_inher : List (String × Nat)
  hooks_request : List (String × Nat)
  hooks_request_inher : List (String × Nat)
  futures : List (String × FutureState)
  total_sent : Counters
  total_recv : Counters
  group : Option (Finset String)
  id : String

/-- The `Remote.open` property: `self.connection.open`.  (`open` is a Lean
keyword, hence the name `isOpen`.) -/
def Remote.isOpen (st : Remote) : Bool :=
  st.connection.isOpen

/-- `hooks = local.copy(); hooks.update(inher)` followed by a lookup: a key
present in the inherited table shadows the local binding, because
`dict.update` overwrites existing keys with the argument's values. -/
def mergedHooks (loc inher : List (String × Nat)) (m : String) : Option Nat :=
  match dget inher m with
  | some h => some h
  | none => dget loc m

/-- Modelled from the spec: `Errors.method_not_found` of `remote/protocol.py`
(not under `src/`) builds a code −32601 error whose message mentions the
unknown method. -/
def method_not_found_message (m : String) : String :=
  "Method not found: " ++ m

/-- Modelled from the spec: `RemoteError.from_message` of `remote/exc.py`
(not under `src/`) turns a received error object into a local failure carrying
its code and message. -/
def errFromMessage (data : List (String × Json)) : Exc :=
  match dget data "error" with
  | some (.obj e) =>
    .remoteError
      (match dget e "code" with | some (.num n) => n | _ => 0)
      (match dget e "message" with | some (.str s) => s | _ => "")
  | _ => .remoteError 0 ""

/-- `Remote.respond`: when the peer is open, count one sent response and hand
`make_response(mid, err/res)` to the transport; when closed, do nothing.
(The send is modelled as succeeding; a failure would only be logged.) -/
def Remote.respond (st : Remote) (mid : Json) (body : RespBody) : Remote × List Event :=
  if st.isOpen then
    ({ st with total_sent := { st.total_sent with response := st.total_sent.response + 1 } },
      [.sentResponse mid body])
  else
    (st, [])

/-- How one call to `Remote.process_line` ends: normally, by raising
`ConnectionResetError` (the inbound `TERM` directive), or by raising some
other uncaught exception (a `KeyError`/`TypeError` from a subscript). -/
inductive ProcResult where
  | ok
  | connReset (reason : Json)
  | raised

/-- `Remote.process_line`, from the point where `json.loads` has produced the
decoded object `data`.  Returns the updated state, the trace of effects
(spawned handler tasks are recorded, not run), and how the call ended. -/
def Remote.process_line (st : Remote) (data : List (String × Json)) :
    Remote × List Event × ProcResult :=
  let method := dget data "method"
  let mid := dget data "id"
  match JRPC.check data with
  | .RESPONSE =>
    let st := { st with total_recv := { st.total_recv with response := st.total_recv.response + 1 } }
    match mid with
    | some (.str s) =>
      match dget st.futures s with
      | some fut =>
        let st := { st with futures := dremove st.futures s }
        match fut with
        | .cancelled => (st, [.warned "Received a Response for a cancelled Future."], .ok)
        | .pending =>
          if (dget data "error").isSome then
            (st, [.completedFuture s (.exc (errFromMessage data))], .ok)
          else
            (st, [.completedFuture s (.result ((dget data "result").getD .null))], .ok)
        | _ => (st, [.warned "Received a Response for a closed Future."], .ok)
      | none => (st, [.warned "Received an unsolicited Response."], .ok)
    | _ => (st, [.warned "Received an unsolicited Response."], .ok)
  | .REQUEST =>
    let st := { st with total_recv := { st.total_recv with request := st.total_recv.request + 1 } }
    match method with
    | some (.str m) =>
      match mergedHooks st.hooks_request st.hooks_request_inher m with
      | some h => (st, [.spawnedTask h data], .ok)
      | none =>
        let r := st.respond (mid.getD .null) (.err (-32601) (method_not_found_message m))
        (r.1, r.2, .ok)
    | _ =>
      let r := st.respond (mid.getD .null) (.err (-32601) (method_not_found_message ""))
      (r.1, r.2, .ok)
  | .NOTIF =>
    let st := { st with total_recv := { st.total_recv with notif := st.total_recv.notif + 1 } }
    match method with
    | some (.str m) =>
      if m = "TERM" then
        match dget data "params" with
        | some (.obj fs) =>
          match dget fs "reason" with
          | some r =>
            (st, [], .connReset (if r.truthy then r else .str "Connection terminated by peer."))
          | none => (st, [], .raised)
        | _ => (st, [], .raised)
      else
        match mergedHooks st.hooks_notif st.hooks_notif_inher m with
        | some h => (st, [.spawnedTask h data], .ok)
        | none => (st, [], .ok)
    | _ => (st, [], .ok)
  | .NONE =>
    match mid with
    | some j =>
      if j.truthy then
        let r := st.respond j (.err (-32600) "Invalid Request")
        (r.1, r.2, .ok)
      else (st, [], .ok)
    | none => (st, [], .ok)

/-- `Remote.close`: flush the byte counters from the connection into the
peer's counters, close the connection, and remove the peer from its group set
when it has one and is a member. -/
def Remote.close (st : Remote) : Remote :=
  let st1 : Remote :=
    { st with
      total_recv := { st.total_recv with byte := st.connection.total_recv },
      total_sent := { st.total_sent with byte := st.connection.total_sent },
      connection := st.connection.close }
  match st1.group with
  | some g => if st1.id ∈ g then { st1 with group := some (g.erase st1.id) } else st1
  | none => st1

/-- One iteration of the `_helper` task body in `Remote.run_helpers`: run
`process_line`; a raised `ConnectionResetError` (from `TERM`) is caught as a
`ConnectionError` and closes the still-open peer with a disconnect log; any
other uncaught exception kills the helper task (which is revived) and leaves
the peer as it is. -/
def Remote.handle_line (st : Remote) (data : List (String × Json)) :
    Remote × List Event :=
  let r := st.process_line data
  match r.2.2 with
  | .ok => (r.1, r.2.1)
  | .connReset reason =>
    if r.1.isOpen then (r.1.close, r.2.1 ++ [.dcon reason]) else (r.1, r.2.1)
  | .raised => (r.1, r.2.1)

/-- `Remote.send`: write the frame to the connection when the peer is open,
otherwise do nothing. -/
def Remote.send (st : Remote) (data : String) : Remote × List Event :=
  if st.isOpen then ({ st with connection := st.connection.write data }, [.wrote data])
  else (st, [])

/-- `Remote.notif`: return immediately when the peer is closed; otherwise
count one sent notification and send `make_notif(meth, params)`.  `sendFails`
is the oracle for the transport send raising; the exception is caught and
logged, and re-raised only when `nohandle` is set (the returned `Bool` is
whether the call raised). -/
def Remote.notif (st : Remote) (meth : String) (params : Option Json)
    (sendFails : Bool) (nohandle : Bool) : Remote × List Event × Bool :=
  if st.isOpen then
    let st1 : Remote :=
      { st with total_sent := { st.total_sent with notif := st.total_sent.notif + 1 } }
    if sendFails then (st1, [.errorLogged "Failed to send Notification"], nohandle)
    else (st1, [.sentNotif meth params], false)
  else (st, [], false)

/-- `Remote.request`: build a future; when the peer is closed, complete it at
once with `ConnectionResetError` and return it without touching the map.
Otherwise count one sent request, build the envelope (the minted correlation
id is the `mid` parameter), insert the pending future into `futures`, and try
to send.  A send failure (`sendFails`) is only logged: even with
`nohandle = true` the re-raise is suppressed, because the source returns the
future from a `finally` block, which swallows the in-flight exception.  The
third component is the state of the returned future. -/
def Remote.request (st : Remote) (meth : String) (params : Option Json)
    (mid : String) (sendFails : Bool) (nohandle : Bool) :
    Remote × List Event × FutureState :=
  if st.isOpen then
    let st1 : Remote :=
      { st with total_sent := { st.total_sent with request := st.total_sent.request + 1 } }
    let st2 : Remote := { st1 with futures := dinsert st1.futures mid .pending }
    if sendFails then (st2, [.errorLogged "Failed to send Request"], .pending)
    else (st2, [.sentRequest meth mid params], .pending)
  else (st, [], .exc .connectionReset)

/-- How the awaited future of `request_wait` resolves: completed by a result
response, completed by an error response, or never completed before the
timeout (`wait_for` then cancels it and raises `TimeoutError`). -/
inductive WaitOutcome where
  | responded (v : Json)
  | errored (code : Int) (msg : String)
  | timedOut

/-- The value a `request_wait` call produces: a returned value (Python `None`
is `Json.null`) or a re-raised `RemoteError`. -/
inductive WaitResult where
  | val (v : Json)
  | raisedRemote (code : Int) (msg : String)

/-- `Remote.request_wait`: when the peer is closed the body is skipped
entirely and the call returns `None`.  Otherwise it performs `request` and
awaits the future: a result response yields its value and an error response
yields `default` (or re-raises when `raise_remote_err`); in both cases the
response worker has popped the map entry (`Remote.process_line`, RESPONSE
branch).  On timeout `wait_for` cancels the future in place — the map entry is
not removed — a warning is logged, and `default` is returned. -/
def Remote.request_wait (st : Remote) (meth : String) (params : Option Json)
    (default : Json) (mid : String) (sendFails : Bool) (timeout : Int)
    (raise_remote_err : Bool) (outcome : WaitOutcome) :
    Remote × List Event × WaitResult :=
  if st.isOpen then
    let r := st.request meth params mid sendFails false
    match outcome with
    | .responded v =>
      ({ r.1 with futures := dremove r.1.futures mid }, r.2.1, .val v)
    | .errored c m =>
      let st2 : Remote := { r.1 with futures := dremove r.1.futures mid }
      if raise_remote_err then (st2, r.2.1, .raisedRemote c m)
      else (st2, r.2.1, .val default)
    | .timedOut =>
      ({ r.1 with futures := dinsert r.1.futures mid .cancelled },
        r.2.1 ++ [.warned (meth ++ " Request timed out.")], .val default)
  else (st, [], .val .null)

/-- Handler ids of the three built-in request handlers installed by
`Remote._add_hooks`. -/
def hookPING : Nat := 0

/-- Handler id of the built-in `RSA.EXCH` handler. -/
def hookEXCH : Nat := 1

/-- Handler id of the built-in `RSA.CONF` handler. -/
def hookCONF : Nat := 2

/-- The local request-handler table right after `Remote._add_hooks`:
`PING`, `RSA.EXCH` and `RSA.CONF` are registered, in that order. -/
def initHooksRequest : List (String × Nat) :=
  [("PING", hookPING), ("RSA.EXCH", hookEXCH), ("RSA.CONF", hookCONF)]

/-- What a request handler returns to its wrapper: a result value, an error
`(code, message)` pair, or a bare `None` (the handler already responded by
itself). -/
inductive HandlerRet where
  | result (v : Json)
  | errPair (code : Int) (msg : String)
  | nores

/-- Modelled from the spec: the `request_handler` wrapper of
`remote/handlers.py` (not under `src/`): the handler's returned result (or
`(code, message)` error pair) is sent as the response addressed to the
request's id; a bare `None` return sends nothing. -/
def runRet (st : Remote) (mid : Json) (r : HandlerRet) : Remote × List Event :=
  match r with
  | .result v => st.respond mid (.result v)
  | .errPair c m => st.respond mid (.err c m)
  | .nores => (st, [])

/-- The body of the built-in `PING` handler `cb_ping`:
`return data.get("params", [])`. -/
def cb_ping (data : List (String × Json)) : Json :=
  (dget data "params").getD (.arr [])

/-- Running the spawned `PING` task: the wrapper sends the handler's returned
value as the result response to the request's id. -/
def run_cb_ping (st : Remote) (data : List (String × Json)) : Remote × List Event :=
  runRet st ((dget data "id").getD .null) (.result (cb_ping data))

/-- Running the spawned `RSA.CONF` task `cb_rsa_confirm`: when the connection
can activate, `respond(data["id"], res=[True])` is awaited first and only then
is `begin_encryption()` called (and the handler returns `None`); otherwise the
handler returns the `(1, "Cannot Activate")` error pair, which the wrapper
sends as an error response.  `data["id"]` on a message without an id raises
(`none`). -/
def run_cb_rsa_confirm (st : Remote) (data : List (String × Json)) :
    Option (Remote × List Event) :=
  match dget data "id" with
  | none => none
  | some mid =>
    if st.connection.can_activate then
      let r := st.respond mid (.result (.arr [.bool true]))
      some ({ r.1 with connection := r.1.connection.begin_encryption },
        r.2 ++ [.beganEncryption])
    else
      some (runRet st mid (.errPair 1 "Cannot Activate"))

/-- A plaintext, open connection with zeroed byte counters. -/
def baseConn : Connection :=
  { isOpen := true, can_encrypt := false, hasRemoteKey := false, active := false,
    total_sent := 0, total_recv := 0 }

/-- A freshly connected peer with empty tables: the concrete test state. -/
def baseRemote : Remote :=
  { connection := baseConn, hooks_notif := [], hooks_notif_inher := [],
    hooks_request := [], hooks_request_inher := [], futures := [],
    total_sent := ⟨0, 0, 0, 0⟩, total_recv := ⟨0, 0, 0, 0⟩, group := none,
    id := "AAA" }

/-- The test peer after its transport has closed. -/
def closedRemote : Remote :=
  { baseRemote with connection := { baseConn with isOpen := false } }

/-- A peer whose local and inherited request tables both register `ALPHA`
and whose local and inherited notification tables both register `BETA`, with
different handlers in each pair. -/
def dualHooksRemote : Remote :=
  { baseRemote with
    hooks_request := [("ALPHA", 1)]
    hooks_request_inher := [("ALPHA", 2)]
    hooks_notif := [("BETA", 3)]
    hooks_notif_inher := [("BETA", 4)] }

/-- A concrete inbound `BETA` notification (no `id`). -/
def notifBETA : List (String × Json) :=
  [("jsonrpc", .str "2.0"), ("method", .str "BETA"), ("params", .obj [])]

/-- A concrete inbound `ALPHA` request. -/
def reqALPHA : List (String × Json) :=
  [("jsonrpc", .str "2.0"), ("method", .str "ALPHA"), ("id", .str "001")]

/-- A concrete inbound request with an unregistered method. -/
def reqNOPE : List (String × Json) :=
  [("jsonrpc", .str "2.0"), ("method", .str "NOPE"), ("params", .arr []),
    ("id", .str "0A2")]

/-- A `TERM` notification whose `params` object carries no `reason` key. -/
def termNoReason : List (String × Json) :=
  [("jsonrpc", .str "2.0"), ("method", .str "TERM"), ("params", .obj [])]

/-- A `TERM` notification with `params = {reason: "bye"}`. -/
def termBye : List (String × Json) :=
  [("jsonrpc", .str "2.0"), ("method", .str "TERM"),
    ("params", .obj [("reason", .str "bye")])]

/-- A connection whose state permits RSA activation: crypto available, remote
key stored, not yet active. -/
def rsaConn : Connection :=
  { isOpen := true, can_encrypt := true, hasRemoteKey := true, active := false,
    total_sent := 0, total_recv := 0 }

/-- The test peer ready to confirm the RSA handshake. -/
def rsaRemote : Remote := { baseRemote with connection := rsaConn }

/-- A concrete inbound `RSA.CONF` request. -/
def reqCONF : List (String × Json) :=
  [("jsonrpc", .str "2.0"), ("method", .str "RSA.CONF"),
    ("params", .arr [.bool true]), ("id", .str "0C1")]

/-- The test peer with the built-in request handlers installed. -/
def pingRemote : Remote := { baseRemote with hooks_request := initHooksRequest }

/-- A concrete inbound `PING` request with params `["aaaa"]`. -/
def reqPING : List (String × Json) :=
  [("jsonrpc", .str "2.0"), ("method", .str "PING"),
    ("params", .arr [.str "aaaa"]), ("id", .str "0A1")]

/-- The test peer as a member of a server's group set. -/
def groupRemote : Remote := { baseRemote with group := some {"AAA"} }

/-- Inserting a binding makes it the one `dget` finds. -/
theorem dget_dinsert {α : Type} (d : List (String × α)) (k : String) (v : α) :
    dget (dinsert d k v) k = some v := by
  induction d with
  | nil => simp [dinsert, dget]
  | cons p t ih =>
    obtain ⟨k', v'⟩ := p
    by_cases h : k' = k
    · simp [dinsert, h, dget]
    · simp [dinsert, h, dget, ih]

/-- Closing a peer closes its connection, whatever the group bookkeeping did. -/
theorem Remote.isOpen_close (st : Remote) : st.close.isOpen = false := by
  unfold Remote.close Remote.isOpen Connection.close
  cases hg : st.group with
  | none => simp
  | some g =>
    by_cases h : st.id ∈ g <;> simp [h]

/-- `Remote.isOpen_close`, stated on the underlying connection field. -/
theorem Remote.conn_isOpen_close (st : Remote) :
    st.close.connection.isOpen = false :=
  Remote.isOpen_close st

/-- Claim C1, counterexample: with request method `ALPHA` registered locally
as handler 1 and inherited as handler 2, dispatch spawns handler 2, and with
notification method `BETA` registered locally as handler 3 and inherited as
handler 4, dispatch spawns handler 4 — in both tables the inherited entry is
invoked, not the local one, so the local registration does not override the
inherited one on either path. -/
theorem c1_counterexample :
    dget dualHooksRemote.hooks_request "ALPHA" = some 1 ∧
    dget dualHooksRemote.hooks_request_inher "ALPHA" = some 2 ∧
    (dualHooksRemote.process_line reqALPHA).2.1 = [.spawnedTask 2 reqALPHA] ∧
    dget dualHooksRemote.hooks_notif "BETA" = some 3 ∧
    dget dualHooksRemote.hooks_notif_inher "BETA" = some 4 ∧
    (dualHooksRemote.process_line notifBETA).2.1 = [.spawnedTask 4 notifBETA] ∧
    (1 : Nat) ≠ 2 ∧ (3 : Nat) ≠ 4 := by
  exact ⟨rfl, rfl, rfl, rfl, rfl, rfl, by decide, by decide⟩

/-- Claim C1 (amended): for every inbound request whose method is registered
in both the local and the inherited request table, and likewise for every
inbound notification — other than the `TERM` directive, which preempts hook
dispatch — whose method is registered in both notification tables, dispatch
invokes the handler from the INHERITED table: `dict.update` makes the
inherited layer override the local one in the merged lookup. -/
theorem c1_dispatch_uses_inherited (st : Remote)
    (dreq dnot : List (String × Json)) (m mid mn : String) (hl hi nl ni : Nat)
    (hm : dget dreq "method" = some (.str m))
    (hid : dget dreq "id" = some (.str mid))
    (h1 : dget st.hooks_request m = some hl)
    (h2 : dget st.hooks_request_inher m = some hi)
    (hmn : dget dnot "method" = some (.str mn))
    (hidn : dget dnot "id" = none)
    (hterm : mn ≠ "TERM")
    (h3 : dget st.hooks_notif mn = some nl)
    (h4 : dget st.hooks_notif_inher mn = some ni) :
    (st.process_line dreq).2.1 = [.spawnedTask hi dreq] ∧
    (st.process_line dnot).2.1 = [.spawnedTask ni dnot] := by
  constructor
  · have hc : JRPC.check dreq = .REQUEST := by simp [JRPC.check, hm, hid]
    simp [Remote.process_line, hc, hm, mergedHooks, h2]
  · have hc : JRPC.check dnot = .NOTIF := by simp [JRPC.check, hmn, hidn]
    simp [Remote.process_line, hc, hmn, hterm, mergedHooks, h4]

/-- Claim C1, witness for the amended theorem at the concrete dual-table
peer, on both the request and the notification path. -/
theorem c1_witness :
    (dualHooksRemote.process_line reqALPHA).2.1 = [.spawnedTask 2 reqALPHA] ∧
    (dualHooksRemote.process_line notifBETA).2.1 = [.spawnedTask 4 notifBETA] :=
  c1_dispatch_uses_inherited dualHooksRemote reqALPHA notifBETA "ALPHA" "001"
    "BETA" 1 2 3 4 rfl rfl rfl rfl rfl rfl (by decide) rfl rfl

/-- Claim C2, counterexample: on an open peer whose transport send raises, the
returned future is still pending and the map entry is still pending — the
slot is never completed with the send error. -/
theorem c2_counterexample :
    (baseRemote.request "FOO" none "001" true false).2.2 = FutureState.pending ∧
    dget (baseRemote.request "FOO" none "001" true false).1.futures "001" =
      some FutureState.pending := by
  exact ⟨rfl, rfl⟩

/-- Claim C2 (amended): when the transport send raises after the pending slot
was inserted, `request` merely logs the error and returns the still-pending
future, whose map entry stays pending; even `nohandle = true` cannot surface
the error, because the `finally: return future` swallows the re-raise. -/
theorem c2_send_failure_leaves_pending (st : Remote) (meth : String)
    (params : Option Json) (mid : String) (nohandle : Bool)
    (hopen : st.isOpen = true) :
    (st.request meth params mid true nohandle).2.2 = FutureState.pending ∧
    dget (st.request meth params mid true nohandle).1.futures mid =
      some FutureState.pending ∧
    (st.request meth params mid true nohandle).2.1 =
      [.errorLogged "Failed to send Request"] := by
  simp [Remote.request, hopen, dget_dinsert]

/-- Claim C2, witness for the amended theorem at the concrete open peer. -/
theorem c2_witness :
    (baseRemote.request "FOO" none "001" true false).2.2 = FutureState.pending ∧
    dget (baseRemote.request "FOO" none "001" true false).1.futures "001" =
      some FutureState.pending ∧
    (baseRemote.request "FOO" none "001" true false).2.1 =
      [.errorLogged "Failed to send Request"] :=
  c2_send_failure_leaves_pending baseRemote "FOO" none "001" false rfl

/-- Claim C3, counterexample: a `request_wait` whose request times out returns
the default and cancels the future, but the pending-call map still holds the
entry afterwards — it is not removed on expiry. -/
theorem c3_counterexample :
    (baseRemote.request_wait "SLOW" none (.str "dflt") "001" false 1 false
        .timedOut).1.futures = [("001", FutureState.cancelled)] ∧
    (baseRemote.request_wait "SLOW" none (.str "dflt") "001" false 1 false
        .timedOut).2.2 = WaitResult.val (.str "dflt") := by
  exact ⟨rfl, rfl⟩

/-- Claim C3 (amended): with timeout T > 0 and no response within T,
`request_wait` returns exactly the supplied default and the pending future is
cancelled on expiry, but its entry is NOT removed from the pending-call map —
it remains, in cancelled state, until a response with that id arrives. -/
theorem c3_timeout_returns_default (st : Remote) (meth : String)
    (params : Option Json) (default : Json) (mid : String) (timeout : Int)
    (rre : Bool) (hopen : st.isOpen = true) (ht : 0 < timeout) :
    (st.request_wait meth params default mid false timeout rre .timedOut).2.2 =
      WaitResult.val default ∧
    dget (st.request_wait meth params default mid false timeout rre
        .timedOut).1.futures mid = some FutureState.cancelled ∧
    (st.request_wait meth params default mid false timeout rre .timedOut).2.1 =
      [.sentRequest meth mid params, .warned (meth ++ " Request timed out.")] := by
  simp [Remote.request_wait, Remote.request, hopen, dget_dinsert]

/-- Claim C3, witness for the amended theorem at the concrete open peer. -/
theorem c3_witness :
    (0 : Int) < 1 ∧
    ((baseRemote.request_wait "SLOW" none (.str "dflt") "001" false 1 false
        .timedOut).2.2 = WaitResult.val (.str "dflt") ∧
      dget (baseRemote.request_wait "SLOW" none (.str "dflt") "001" false 1 false
          .timedOut).1.futures "001" = some FutureState.cancelled ∧
      (baseRemote.request_wait "SLOW" none (.str "dflt") "001" false 1 false
          .timedOut).2.1 =
        [.sentRequest "SLOW" "001" none, .warned ("SLOW" ++ " Request timed out.")]) :=
  ⟨by decide,
    c3_timeout_returns_default baseRemote "SLOW" none (.str "dflt") "001" 1 false
      rfl (by decide)⟩

/-- Claim C4, counterexample: an inbound `TERM` notification whose `params`
object carries no `reason` key does NOT close the peer: the subscript
`data["params"]["reason"]` raises a `KeyError`, the helper task dies, and the
peer stays open. -/
theorem c4_counterexample :
    (baseRemote.handle_line termNoReason).1.isOpen = true ∧
    (baseRemote.process_line termNoReason).2.2 = ProcResult.raised := by
  exact ⟨rfl, rfl⟩

/-- Claim C4 (amended): an inbound `TERM` notification closes the receiving
peer with `params.reason` when that key is present and truthy, and with the
default reason "Connection terminated by peer." when the key is present but
falsy (e.g. `null`); when `params` carries no `reason` key at all, a
`KeyError` propagates instead and the peer is not closed. -/
theorem c4_term_closes (st : Remote) (data fs : List (String × Json))
    (hopen : st.isOpen = true)
    (hm : dget data "method" = some (.str "TERM"))
    (hid : dget data "id" = none)
    (hp : dget data "params" = some (.obj fs)) :
    (∀ r, dget fs "reason" = some r →
      (st.handle_line data).1.isOpen = false ∧
      (st.handle_line data).2 =
        [.dcon (if r.truthy then r else .str "Connection terminated by peer.")]) ∧
    (dget fs "reason" = none →
      (st.handle_line data).1.isOpen = true ∧
      (st.handle_line data).2 = []) := by
  have hopen' : st.connection.isOpen = true := hopen
  have hc : JRPC.check data = .NOTIF := by simp [JRPC.check, hm, hid]
  constructor
  · intro r hr
    simp only [Remote.handle_line, Remote.process_line, hc, hm, hp, hr]
    simp [Remote.isOpen, hopen', Remote.conn_isOpen_close]
  · intro hr
    simp [Remote.handle_line, Remote.process_line, hc, hm, hp, hr, Remote.isOpen,
      hopen']

/-- Claim C4, witness for the amended theorem at a concrete `TERM` with
`params = {reason: "bye"}`. -/
theorem c4_witness :
    ((∀ r, dget [("reason", Json.str "bye")] "reason" = some r →
      (baseRemote.handle_line termBye).1.isOpen = false ∧
      (baseRemote.handle_line termBye).2 =
        [.dcon (if r.truthy then r else .str "Connection terminated by peer.")]) ∧
    (dget [("reason", Json.str "bye")] "reason" = none →
      (baseRemote.handle_line termBye).1.isOpen = true ∧
      (baseRemote.handle_line termBye).2 = [])) :=
  c4_term_closes baseRemote termBye [("reason", .str "bye")] rfl rfl rfl rfl

/-- Claim C5: on a peer with `open = false`, `notif`, `respond` and `send` are
silent no-ops — they transmit nothing, raise nothing and leave the state
(including the pending-call map and the tables) unchanged — while `request`
returns a future already completed with a connection-reset failure, likewise
without touching the state. -/
theorem c5_closed_sends_are_noops (st : Remote) (meth : String)
    (params : Option Json) (midj : Json) (body : RespBody) (frame : String)
    (mid : String) (sendFails nohandle : Bool) (hclosed : st.isOpen = false) :
    st.notif meth params sendFails nohandle = (st, [], false) ∧
    st.respond midj body = (st, []) ∧
    st.send frame = (st, []) ∧
    st.request meth params mid sendFails nohandle =
      (st, [], .exc .connectionReset) := by
  have hclosed' : st.connection.isOpen = false := hclosed
  simp [Remote.notif, Remote.respond, Remote.send, Remote.request, Remote.isOpen,
    hclosed']

/-- Claim C5, witness at the concrete closed peer. -/
theorem c5_witness :
    closedRemote.notif "FOO" none false false = (closedRemote, [], false) ∧
    closedRemote.respond .null (.result .null) = (closedRemote, []) ∧
    closedRemote.send "x" = (closedRemote, []) ∧
    closedRemote.request "FOO" none "001" false false =
      (closedRemote, [], .exc .connectionReset) :=
  c5_closed_sends_are_noops closedRemote "FOO" none .null (.result .null) "x"
    "001" false false rfl

/-- Claim C6: for an inbound `RSA.CONF` request on an open peer, when the
connection's state permits activation the handler first sends the `[true]`
result response and only afterwards begins encryption — the event trace is
exactly the response followed by the activation; when the state forbids
activation, it responds with error code 1, message "Cannot Activate", and the
connection (in particular its ACTIVE flag) is left untouched. -/
theorem c6_rsa_conf_responds_before_activating (st : Remote)
    (data : List (String × Json)) (mid : Json)
    (hid : dget data "id" = some mid) (hopen : st.isOpen = true) :
    (st.connection.can_activate = true →
      run_cb_rsa_confirm st data =
        some ({ st with
            total_sent := { st.total_sent with response := st.total_sent.response + 1 }
            connection := { st.connection with active := true } },
          [.sentResponse mid (.result (.arr [.bool true])), .beganEncryption])) ∧
    (st.connection.can_activate = false →
      run_cb_rsa_confirm st data =
        some ({ st with
            total_sent := { st.total_sent with response := st.total_sent.response + 1 } },
          [.sentResponse mid (.err 1 "Cannot Activate")])) := by
  have hopen' : st.connection.isOpen = true := hopen
  constructor <;> intro h <;>
    simp [run_cb_rsa_confirm, hid, h, Remote.respond, Remote.isOpen, hopen',
      Connection.begin_encryption, runRet]

/-- Claim C6, witness at the concrete activation-ready peer. -/
theorem c6_witness :
    ((rsaRemote.connection.can_activate = true →
      run_cb_rsa_confirm rsaRemote reqCONF =
        some ({ rsaRemote with
            total_sent := { rsaRemote.total_sent with response := rsaRemote.total_sent.response + 1 }
            connection := { rsaRemote.connection with active := true } },
          [.sentResponse (.str "0C1") (.result (.arr [.bool true])), .beganEncryption])) ∧
    (rsaRemote.connection.can_activate = false →
      run_cb_rsa_confirm rsaRemote reqCONF =
        some ({ rsaRemote with
            total_sent := { rsaRemote.total_sent with response := rsaRemote.total_sent.response + 1 } },
          [.sentResponse (.str "0C1") (.err 1 "Cannot Activate")]))) :=
  c6_rsa_conf_responds_before_activating rsaRemote reqCONF (.str "0C1") rfl rfl

/-- Claim C7: an inbound request whose method is registered in neither the
local nor the inherited request table makes the open peer emit exactly one
response: an error response with code −32601 whose message mentions the
method, addressed to the request's id. -/
theorem c7_unknown_method_not_found (st : Remote) (data : List (String × Json))
    (m mid : String)
    (hm : dget data "method" = some (.str m))
    (hid : dget data "id" = some (.str mid))
    (hnone : mergedHooks st.hooks_request st.hooks_request_inher m = none)
    (hopen : st.isOpen = true) :
    (st.process_line data).2.1 =
      [.sentResponse (.str mid) (.err (-32601) (method_not_found_message m))] ∧
    ∃ pre suf, method_not_found_message m = pre ++ m ++ suf := by
  have hopen' : st.connection.isOpen = true := hopen
  have hc : JRPC.check data = .REQUEST := by simp [JRPC.check, hm, hid]
  refine ⟨?_, "Method not found: ", "", by simp [method_not_found_message]⟩
  simp [Remote.process_line, hc, hm, hid, hnone, Remote.respond, Remote.isOpen,
    hopen']

/-- Claim C7, witness at the concrete peer and the `NOPE` request. -/
theorem c7_witness :
    ((baseRemote.process_line reqNOPE).2.1 =
      [.sentResponse (.str "0A2") (.err (-32601) (method_not_found_message "NOPE"))] ∧
    ∃ pre suf, method_not_found_message "NOPE" = pre ++ "NOPE" ++ suf) :=
  c7_unknown_method_not_found baseRemote reqNOPE "NOPE" "0A2" rfl rfl rfl rfl

/-- Claim C8: an inbound `PING` request with params `p` on an open peer with
the built-in handlers is dispatched to the built-in `PING` handler, and
running that handler emits a result response to the request's id whose result
is exactly `p` — the echo is the identity on the params. -/
theorem c8_ping_echoes_params (st : Remote) (data : List (String × Json))
    (p : Json) (mid : String)
    (hhr : st.hooks_request = initHooksRequest)
    (hin : st.hooks_request_inher = [])
    (hm : dget data "method" = some (.str "PING"))
    (hid : dget data "id" = some (.str mid))
    (hp : dget data "params" = some p)
    (hopen : st.isOpen = true) :
    (st.process_line data).2.1 = [.spawnedTask hookPING data] ∧
    (run_cb_ping (st.process_line data).1 data).2 =
      [.sentResponse (.str mid) (.result p)] := by
  have hopen' : st.connection.isOpen = true := hopen
  have hc : JRPC.check data = .REQUEST := by simp [JRPC.check, hm, hid]
  have hmh : mergedHooks st.hooks_request st.hooks_request_inher "PING" =
      some hookPING := by
    simp [mergedHooks, hhr, hin, initHooksRequest, dget]
  constructor
  · simp [Remote.process_line, hc, hm, hmh]
  · simp [Remote.process_line, hc, hm, hmh, run_cb_ping, runRet, cb_ping, hp, hid,
      Remote.respond, Remote.isOpen, hopen']

/-- Claim C8, witness at the concrete peer and a `PING` with params
`["aaaa"]`. -/
theorem c8_witness :
    ((pingRemote.process_line reqPING).2.1 = [.spawnedTask hookPING reqPING] ∧
    (run_cb_ping (pingRemote.process_line reqPING).1 reqPING).2 =
      [.sentResponse (.str "0A1") (.result (.arr [.str "aaaa"]))]) :=
  c8_ping_echoes_params pingRemote reqPING (.arr [.str "aaaa"]) "0A1" rfl rfl rfl
    rfl rfl rfl

/-- Claim C9: for a peer constructed with a group set, `close()` removes the
peer's id from that set, leaves the peer closed, and is idempotent — a second
call changes nothing: no error, no double removal from the group, no change
to the flushed byte counters. -/
theorem c9_close_idempotent (st : Remote) (g : Finset String)
    (hg : st.group = some g) :
    st.close.group = some (g.erase st.id) ∧
    st.close.isOpen = false ∧
    st.close.close = st.close := by
  refine ⟨?_, Remote.isOpen_close st, ?_⟩
  · unfold Remote.close
    by_cases h : st.id ∈ g <;>
      simp [hg, h, Connection.close, Finset.erase_eq_of_not_mem]
  · unfold Remote.close Connection.close
    by_cases h : st.id ∈ g
    · simp [hg, h, Finset.not_mem_erase]
    · simp [hg, h]

/-- Claim C9, witness at the concrete grouped peer. -/
theorem c9_witness :
    groupRemote.close.group = some (({"AAA"} : Finset String).erase groupRemote.id) ∧
    groupRemote.close.isOpen = false ∧
    groupRemote.close.close = groupRemote.close :=
  c9_close_idempotent groupRemote {"AAA"} rfl

/-- Claim C10: `request_wait` on a peer with `open = false` skips its whole
body: it returns `None` (not the supplied default), sends nothing, inserts no
pending slot, and raises nothing — the state is returned unchanged. -/
theorem c10_request_wait_closed_returns_none (st : Remote) (meth : String)
    (params : Option Json) (default : Json) (mid : String) (sendFails : Bool)
    (timeout : Int) (rre : Bool) (outcome : WaitOutcome)
    (hclosed : st.isOpen = false) :
    st.request_wait meth params default mid sendFails timeout rre outcome =
      (st, [], .val .null) := by
  have hclosed' : st.connection.isOpen = false := hclosed
  simp [Remote.request_wait, Remote.isOpen, hclosed']

/-- Claim C10, witness at the concrete closed peer, with a non-null default
(the returned value is `null`, not the default). -/
theorem c10_witness :
    closedRemote.request_wait "FOO" none (.str "dflt") "001" false 10 false
        .timedOut = (closedRemote, [], .val .null) :=
  c10_request_wait_closed_returns_none closedRemote "FOO" none (.str "dflt")
    "001" false 10 false .timedOut rfl

end EzIPC
